import Mathlib

/-!
Shallow embedding of the gowiki server (src/wiki.go).

The file system and the two fallible external effects (the file write
performed by os.WriteFile and the template execution performed by
html/template) are modelled by an explicit `World` value: an association
list from file names to byte contents, an oracle saying whether a write
fails (and with which error text), and an oracle saying whether executing
a named template on a given Page fails.  Handlers are pure functions from
a `World` and a `Request` to the list of HTTP responses written, the
resulting `World`, and the trace of file-system operations performed.
Bytes are modelled as `Nat` values (a byte slice is a `List Nat`).
-/

/-- The Page struct of wiki.go: Title (string) and Body ([]byte). -/
structure Page where
  Title : String
  Body : List Nat
  deriving DecidableEq, Repr

/-- The ambient state: the files on disk, an oracle injecting write
failures (os.WriteFile errors), and an oracle injecting template
execution failures (templates.ExecuteTemplate errors). -/
structure World where
  files : List (String × List Nat)
  writeErr : Option String
  renderErr : String → Page → Option String

/-- A file-system operation, recorded in the handler trace.  A write
records the file name, the content and the permission bits passed to
os.WriteFile. -/
inductive FsEvent where
  | read (name : String)
  | write (name : String) (content : List Nat) (perm : Nat)
  deriving DecidableEq, Repr

/-- os.ReadFile: look the file up; `none` is the not-found error. -/
def readFile (w : World) (name : String) : Option (List Nat) :=
  w.files.lookup name

/-- Replace the content of a file in the association list, creating the
entry if absent (os.WriteFile creates or truncates). -/
def setFile : List (String × List Nat) → String → List Nat → List (String × List Nat)
  | [], name, content => [(name, content)]
  | (n, c) :: rest, name, content =>
    if n = name then (name, content) :: rest
    else (n, c) :: setFile rest name content

/-- os.WriteFile: fails exactly when the write-failure oracle says so,
otherwise creates or truncates the named file with the given content.
The permission argument does not affect the stored content. -/
def writeFile (w : World) (name : String) (content : List Nat) (perm : Nat) :
    Except String World :=
  match w.writeErr with
  | some e => Except.error e
  | none => Except.ok { w with files := setFile w.files name content }

/-- func (p *Page) save() error — writes p.Body to the file named
p.Title + ".txt" with mode 0600, returning the write error if any.  The
second component is the trace of file-system operations performed. -/
def Page.save (w : World) (p : Page) : Except String World × List FsEvent :=
  let filename := p.Title ++ ".txt"
  (writeFile w filename p.Body 0o600, [FsEvent.write filename p.Body 0o600])

/-- func loadPage(title string) (*Page, error) — reads title + ".txt";
on a read error returns none, otherwise a Page with that title and the
file bytes as body. -/
def loadPage (w : World) (title : String) : Option Page × List FsEvent :=
  let filename := title ++ ".txt"
  match readFile w filename with
  | none => (none, [FsEvent.read filename])
  | some body => (some { Title := title, Body := body }, [FsEvent.read filename])

/-- The character class [a-zA-Z0-9] of the validPath regular expression. -/
def isAlphaNumAscii (c : Char) : Bool :=
  (('a' ≤ c) && (c ≤ 'z')) || (('A' ≤ c) && (c ≤ 'Z')) || (('0' ≤ c) && (c ≤ '9'))

/-- Whether the pattern list is an initial segment of the second list. -/
def listStartsWith : List Char → List Char → Bool
  | [], _ => true
  | _ :: _, [] => false
  | x :: xs, y :: ys => (x == y) && listStartsWith xs ys

/-- Match one alternative of the verb group of validPath against the
characters following the leading slash: the verb, then a slash, then one
or more characters of [a-zA-Z0-9] running to the end of the path. -/
def matchVerb (verb : String) (rest : List Char) : Option (String × String) :=
  if listStartsWith verb.data rest then
    match rest.drop verb.data.length with
    | '/' :: title =>
      if (!title.isEmpty) && title.all isAlphaNumAscii then
        some (verb, String.mk title)
      else none
    | _ => none
  else none

/-- validPath.FindStringSubmatch on the anchored regular expression
^/(edit|save|view)/([a-zA-Z0-9]+)$ — returns the verb (first
subexpression) and the title (second subexpression), or none when the
path does not match. -/
def matchValidPath (path : String) : Option (String × String) :=
  match path.data with
  | '/' :: rest =>
    (matchVerb "edit" rest) <|> (matchVerb "save" rest) <|> (matchVerb "view" rest)
  | _ => none

/-- An incoming HTTP request: its method, its URL path, and its form
values (the merged query/body form, as read by Request.FormValue). -/
structure Request where
  method : String
  path : String
  form : List (String × String)

/-- Request.FormValue: the named form component, or "" when absent. -/
def formValue (r : Request) (key : String) : String :=
  match r.form.lookup key with
  | some v => v
  | none => ""

/-- func getTitle — the title extracted by validPath, none when the path
fails to match (in which case the caller responds 404 and stops). -/
def getTitle (r : Request) : Option String :=
  (matchValidPath r.path).map Prod.snd

/-- An HTTP response written to the ResponseWriter: a rendered template
body, an http.Redirect, an http.NotFound, or an http.Error. -/
inductive Response where
  | rendered (tmpl : String) (p : Page)
  | redirect (location : String) (code : Nat)
  | notFound
  | serverError (code : Nat) (msg : String)
  deriving DecidableEq, Repr

/-- http.StatusFound. -/
def statusFound : Nat := 302

/-- http.StatusInternalServerError. -/
def statusInternalServerError : Nat := 500

/-- func renderTemplate — executes the named template on the page; on an
execution error responds http.Error with the error text and status 500,
otherwise writes the rendered body. -/
def renderTemplate (w : World) (tmpl : String) (p : Page) : List Response :=
  match w.renderErr tmpl p with
  | some e => [Response.serverError statusInternalServerError e]
  | none => [Response.rendered tmpl p]

/-- []byte(s): the UTF-8 bytes of a Go string. -/
def strBytes (s : String) : List Nat :=
  s.toUTF8.data.toList.map (fun b => b.toNat)

/-- func viewHandler — on an invalid path, 404 and stop; on a load
failure, redirect to /edit/<title>; otherwise render the view template. -/
def viewHandler (w : World) (r : Request) : List Response × World × List FsEvent :=
  match getTitle r with
  | none => ([Response.notFound], w, [])
  | some title =>
    match loadPage w title with
    | (none, ev) => ([Response.redirect ("/edit/" ++ title) statusFound], w, ev)
    | (some p, ev) => (renderTemplate w "view" p, w, ev)

/-- func editHandler — on an invalid path, 404 and stop; on a load
failure, substitute a Page with only the title (nil body); render the
edit template in both outcomes. -/
def editHandler (w : World) (r : Request) : List Response × World × List FsEvent :=
  match getTitle r with
  | none => ([Response.notFound], w, [])
  | some title =>
    match loadPage w title with
    | (none, ev) => (renderTemplate w "edit" { Title := title, Body := [] }, w, ev)
    | (some p, ev) => (renderTemplate w "edit" p, w, ev)

/-- func saveHandler — on an invalid path, 404 and stop; otherwise build
a Page from the title and the "body" form field, save it, and on a save
error respond http.Error 500 with the error text, else redirect to
/view/<title>. -/
def saveHandler (w : World) (r : Request) : List Response × World × List FsEvent :=
  match getTitle r with
  | none => ([Response.notFound], w, [])
  | some title =>
    let body := formValue r "body"
    let p : Page := { Title := title, Body := strBytes body }
    match Page.save w p with
    | (Except.error e, ev) => ([Response.serverError statusInternalServerError e], w, ev)
    | (Except.ok w', ev) => ([Response.redirect ("/view/" ++ title) statusFound], w', ev)

/-- The title component of the validPath pattern: ^[a-zA-Z0-9]+$. -/
def isValidTitle (s : String) : Bool :=
  (!s.data.isEmpty) && s.data.all isAlphaNumAscii

/-! Helper lemmas about the association-list file system. -/

theorem lookup_setFile_self (fs : List (String × List Nat)) (name : String)
    (content : List Nat) : (setFile fs name content).lookup name = some content := by
  induction fs with
  | nil => simp [setFile, List.lookup]
  | cons hd tl ih =>
    obtain ⟨n, c⟩ := hd
    by_cases h : n = name
    · subst h
      simp [setFile, List.lookup]
    · have hb : (name == n) = false := beq_eq_false_iff_ne.mpr (Ne.symm h)
      simp [setFile, h, List.lookup, hb, ih]

theorem lookup_setFile_ne (fs : List (String × List Nat)) (name n' : String)
    (content : List Nat) (h : n' ≠ name) :
    (setFile fs name content).lookup n' = fs.lookup n' := by
  have hb : (n' == name) = false := beq_eq_false_iff_ne.mpr h
  induction fs with
  | nil => simp [setFile, List.lookup, hb]
  | cons hd tl ih =>
    obtain ⟨n, c⟩ := hd
    by_cases hn : n = name
    · subst hn
      simp [setFile, List.lookup, hb]
    · simp [setFile, hn, List.lookup, ih]

theorem renderTemplate_length (w : World) (tmpl : String) (p : Page) :
    (renderTemplate w tmpl p).length = 1 := by
  unfold renderTemplate
  cases w.renderErr tmpl p <;> rfl

theorem edit_path_ne_view_path (t : String) : "/edit/" ++ t ≠ "/view/" ++ t := by
  intro hEq
  have h2 : ('/' :: 'e' :: 'd' :: 'i' :: 't' :: '/' :: t.data)
      = ('/' :: 'v' :: 'i' :: 'e' :: 'w' :: '/' :: t.data) :=
    congrArg String.data hEq
  simp at h2

/-- C1: for a title matching ^[a-zA-Z0-9]+$ and any body bytes, when the
underlying file write does not fail, saving the Page and then loading the
same title succeeds and yields a Page whose body is exactly the saved
bytes (save/load round-trip). -/
theorem save_load_roundtrip (w : World) (p : Page)
    (ht : isValidTitle p.Title = true) (hw : w.writeErr = none) :
    ((Page.save w p).1.toOption.bind (fun w' => (loadPage w' p.Title).1)) = some p := by
  simp [Page.save, writeFile, hw, Except.toOption, loadPage, readFile, lookup_setFile_self]

/-- Witness for C1 at title "Foo" and body bytes [104, 105]. -/
theorem save_load_roundtrip_witness :
    isValidTitle "Foo" = true ∧
    ((Page.save { files := [], writeErr := none, renderErr := fun _ _ => none }
        { Title := "Foo", Body := [104, 105] }).1.toOption.bind
      (fun w' => (loadPage w' "Foo").1)) = some { Title := "Foo", Body := [104, 105] } :=
  ⟨by decide,
    save_load_roundtrip { files := [], writeErr := none, renderErr := fun _ _ => none }
      { Title := "Foo", Body := [104, 105] } (by decide) rfl⟩


/-- C2: for a request path not matching ^/(edit|save|view)/([a-zA-Z0-9]+)$
(including path-traversal titles such as ../secret), every handler
responds exactly one 404, leaves the world unchanged, and performs no
file-system operation: neither loadPage nor save is reached. -/
theorem invalid_path_404_no_file_io (w : World) (r : Request)
    (h : matchValidPath r.path = none) :
    viewHandler w r = ([Response.notFound], w, []) ∧
    editHandler w r = ([Response.notFound], w, []) ∧
    saveHandler w r = ([Response.notFound], w, []) := by
  refine ⟨?_, ?_, ?_⟩ <;>
    simp [viewHandler, editHandler, saveHandler, getTitle, h]

/-- Witness for C2 at the path-traversal path /save/../secret. -/
theorem invalid_path_404_no_file_io_witness :
    matchValidPath "/save/../secret" = none ∧
    (viewHandler { files := [], writeErr := none, renderErr := fun _ _ => none }
        { method := "GET", path := "/save/../secret", form := [] }
      = ([Response.notFound],
         { files := [], writeErr := none, renderErr := fun _ _ => none }, []) ∧
     editHandler { files := [], writeErr := none, renderErr := fun _ _ => none }
        { method := "GET", path := "/save/../secret", form := [] }
      = ([Response.notFound],
         { files := [], writeErr := none, renderErr := fun _ _ => none }, []) ∧
     saveHandler { files := [], writeErr := none, renderErr := fun _ _ => none }
        { method := "GET", path := "/save/../secret", form := [] }
      = ([Response.notFound],
         { files := [], writeErr := none, renderErr := fun _ _ => none }, [])) :=
  ⟨by decide,
    invalid_path_404_no_file_io
      { files := [], writeErr := none, renderErr := fun _ _ => none }
      { method := "GET", path := "/save/../secret", form := [] } (by decide)⟩

/-- C4: on a valid view request whose page file does not exist, the view
handler writes exactly one response, a StatusFound (302) redirect to
/edit/<title>, and in particular does not redirect to /view/<title>. -/
theorem viewHandler_missing_redirects_to_edit (w : World) (r : Request) (t : String)
    (h : getTitle r = some t) (hmiss : readFile w (t ++ ".txt") = none) :
    (viewHandler w r).1 = [Response.redirect ("/edit/" ++ t) statusFound] ∧
    (viewHandler w r).1 ≠ [Response.redirect ("/view/" ++ t) statusFound] := by
  have h1 : (viewHandler w r).1 = [Response.redirect ("/edit/" ++ t) statusFound] := by
    simp [viewHandler, h, loadPage, hmiss]
  refine ⟨h1, ?_⟩
  rw [h1]
  intro hEq
  have h2 : "/edit/" ++ t = "/view/" ++ t := by
    have h3 := List.head_eq_of_cons_eq hEq
    simp only [Response.redirect.injEq] at h3
    exact h3.1
  exact edit_path_ne_view_path t h2

/-- Witness for C4: GET /view/Bar with no file Bar.txt. -/
theorem viewHandler_missing_redirects_to_edit_witness :
    (viewHandler { files := [], writeErr := none, renderErr := fun _ _ => none }
        { method := "GET", path := "/view/Bar", form := [] }).1
      = [Response.redirect "/edit/Bar" statusFound] ∧
    (viewHandler { files := [], writeErr := none, renderErr := fun _ _ => none }
        { method := "GET", path := "/view/Bar", form := [] }).1
      ≠ [Response.redirect "/view/Bar" statusFound] :=
  viewHandler_missing_redirects_to_edit
    { files := [], writeErr := none, renderErr := fun _ _ => none }
    { method := "GET", path := "/view/Bar", form := [] } "Bar" (by decide) rfl

/-- C5: on a valid edit request, the edit handler renders the edit
template in both outcomes: when the page file does not exist it renders
it on a Page with the requested title and empty body (no error is
surfaced), and when the load succeeds it renders it on the loaded
Page. -/
theorem editHandler_renders_edit_template (w : World) (r : Request) (t : String)
    (h : getTitle r = some t) :
    (readFile w (t ++ ".txt") = none →
      (editHandler w r).1 = renderTemplate w "edit" { Title := t, Body := [] }) ∧
    (readFile w (t ++ ".txt") = none →
      w.renderErr "edit" { Title := t, Body := [] } = none →
      (editHandler w r).1 = [Response.rendered "edit" { Title := t, Body := [] }]) ∧
    (∀ b, readFile w (t ++ ".txt") = some b →
      (editHandler w r).1 = renderTemplate w "edit" { Title := t, Body := b }) := by
  refine ⟨?_, ?_, ?_⟩
  · intro hmiss
    simp [editHandler, h, loadPage, hmiss]
  · intro hmiss hrender
    simp [editHandler, h, loadPage, hmiss, renderTemplate, hrender]
  · intro b hb
    simp [editHandler, h, loadPage, hb]

/-- Witness for C5: GET /edit/NoFile with the file absent renders the
edit template on the page with title NoFile and empty body. -/
theorem editHandler_renders_edit_template_witness :
    (editHandler { files := [], writeErr := none, renderErr := fun _ _ => none }
        { method := "GET", path := "/edit/NoFile", form := [] }).1
      = [Response.rendered "edit" { Title := "NoFile", Body := [] }] :=
  (editHandler_renders_edit_template
      { files := [], writeErr := none, renderErr := fun _ _ => none }
      { method := "GET", path := "/edit/NoFile", form := [] } "NoFile"
      (by decide)).2.1 rfl rfl

/-- C8: whenever executing the template fails, renderTemplate writes
exactly one response, an http.Error with status 500 and the error text;
no retry and nothing else is written. -/
theorem renderTemplate_failure_500 (w : World) (tmpl : String) (p : Page) (e : String)
    (h : w.renderErr tmpl p = some e) :
    renderTemplate w tmpl p = [Response.serverError statusInternalServerError e] := by
  simp [renderTemplate, h]

/-- Witness for C8 with an oracle that fails every render. -/
theorem renderTemplate_failure_500_witness :
    renderTemplate { files := [], writeErr := none, renderErr := fun _ _ => some "boom" }
        "view" { Title := "Foo", Body := [] }
      = [Response.serverError statusInternalServerError "boom"] :=
  renderTemplate_failure_500
    { files := [], writeErr := none, renderErr := fun _ _ => some "boom" }
    "view" { Title := "Foo", Body := [] } "boom" rfl

/-- C3: on a valid save request, the handler builds a Page from the
title and the bytes of the "body" form field; if the write fails it
writes exactly one response, a 500 carrying the error text (no
redirect), and the world is unchanged; if the write succeeds it
redirects to /view/<title> and the page body is persisted under
<title>.txt. -/
theorem saveHandler_persists_or_500 (w : World) (r : Request) (t : String)
    (h : getTitle r = some t) :
    (∀ e, w.writeErr = some e →
      saveHandler w r
        = ([Response.serverError statusInternalServerError e], w,
           [FsEvent.write (t ++ ".txt") (strBytes (formValue r "body")) 0o600])) ∧
    (w.writeErr = none →
      (saveHandler w r).1 = [Response.redirect ("/view/" ++ t) statusFound] ∧
      readFile (saveHandler w r).2.1 (t ++ ".txt")
        = some (strBytes (formValue r "body"))) := by
  refine ⟨?_, ?_⟩
  · intro e he
    simp [saveHandler, h, Page.save, writeFile, he]
  · intro hw
    simp [saveHandler, h, Page.save, writeFile, hw, readFile, lookup_setFile_self]

/-- Witness for C3: POST /save/Foo with body=hello persists the bytes of
"hello" into Foo.txt and redirects to /view/Foo. -/
theorem saveHandler_persists_or_500_witness :
    (saveHandler { files := [], writeErr := none, renderErr := fun _ _ => none }
        { method := "POST", path := "/save/Foo", form := [("body", "hello")] }).1
      = [Response.redirect "/view/Foo" statusFound] ∧
    readFile
      (saveHandler { files := [], writeErr := none, renderErr := fun _ _ => none }
        { method := "POST", path := "/save/Foo", form := [("body", "hello")] }).2.1
      "Foo.txt" = some (strBytes "hello") :=
  (saveHandler_persists_or_500
    { files := [], writeErr := none, renderErr := fun _ _ => none }
    { method := "POST", path := "/save/Foo", form := [("body", "hello")] }
    "Foo" (by decide)).2 rfl

/-- C6: every handler writes exactly one response per request — a
rendered body, a redirect, a 404 or a 500 — never more than one; in
particular nothing further is written after an error response. -/
theorem exactly_one_response_per_request (w : World) (r : Request) :
    ((viewHandler w r).1).length = 1 ∧
    ((editHandler w r).1).length = 1 ∧
    ((saveHandler w r).1).length = 1 := by
  refine ⟨?_, ?_, ?_⟩
  · rcases hg : getTitle r with _ | t
    · simp [viewHandler, hg]
    · rcases hl : loadPage w t with ⟨po, ev⟩
      cases po <;> simp [viewHandler, hg, hl, renderTemplate_length]
  · rcases hg : getTitle r with _ | t
    · simp [editHandler, hg]
    · rcases hl : loadPage w t with ⟨po, ev⟩
      cases po <;> simp [editHandler, hg, hl, renderTemplate_length]
  · rcases hg : getTitle r with _ | t
    · simp [saveHandler, hg]
    · cases hw : w.writeErr <;>
        simp [saveHandler, hg, Page.save, writeFile, hw]

/-- C7: save writes exactly the page body to the file named
Title + ".txt" with permission bits 0600; after a successful save that
file holds exactly the new bytes (any previous content is replaced) and
every other file is untouched. -/
theorem save_writes_exact_bytes (w : World) (p : Page) (hw : w.writeErr = none) :
    (Page.save w p).2 = [FsEvent.write (p.Title ++ ".txt") p.Body 0o600] ∧
    ((Page.save w p).1.toOption.bind fun w' => readFile w' (p.Title ++ ".txt"))
      = some p.Body ∧
    ∀ n, n ≠ p.Title ++ ".txt" →
      ((Page.save w p).1.toOption.bind fun w' => readFile w' n) = readFile w n := by
  refine ⟨rfl, ?_, ?_⟩
  · simp [Page.save, writeFile, hw, Except.toOption, readFile, lookup_setFile_self]
  · intro n hn
    simp [Page.save, writeFile, hw, Except.toOption, readFile, lookup_setFile_ne _ _ _ _ hn]

/-- Witness for C7: saving body [9] under title "Foo" over a world where
Foo.txt already holds [1, 2, 3] truncates Foo.txt to exactly [9], leaves
Bar.txt untouched, and records a write with permission bits 0600. -/
theorem save_writes_exact_bytes_witness :
    (Page.save
        { files := [("Foo.txt", [1, 2, 3]), ("Bar.txt", [7])],
          writeErr := none, renderErr := fun _ _ => none }
        { Title := "Foo", Body := [9] }).2
      = [FsEvent.write "Foo.txt" [9] 0o600] ∧
    ((Page.save
        { files := [("Foo.txt", [1, 2, 3]), ("Bar.txt", [7])],
          writeErr := none, renderErr := fun _ _ => none }
        { Title := "Foo", Body := [9] }).1.toOption.bind
      fun w' => readFile w' "Foo.txt") = some [9] ∧
    ((Page.save
        { files := [("Foo.txt", [1, 2, 3]), ("Bar.txt", [7])],
          writeErr := none, renderErr := fun _ _ => none }
        { Title := "Foo", Body := [9] }).1.toOption.bind
      fun w' => readFile w' "Bar.txt")
      = readFile
          { files := [("Foo.txt", [1, 2, 3]), ("Bar.txt", [7])],
            writeErr := none, renderErr := fun _ _ => none } "Bar.txt" :=
  ⟨(save_writes_exact_bytes
      { files := [("Foo.txt", [1, 2, 3]), ("Bar.txt", [7])],
        writeErr := none, renderErr := fun _ _ => none }
      { Title := "Foo", Body := [9] } rfl).1,
   (save_writes_exact_bytes
      { files := [("Foo.txt", [1, 2, 3]), ("Bar.txt", [7])],
        writeErr := none, renderErr := fun _ _ => none }
      { Title := "Foo", Body := [9] } rfl).2.1,
   (save_writes_exact_bytes
      { files := [("Foo.txt", [1, 2, 3]), ("Bar.txt", [7])],
        writeErr := none, renderErr := fun _ _ => none }
      { Title := "Foo", Body := [9] } rfl).2.2 "Bar.txt" (by decide)⟩

/-- C9: no handler inspects the request method — for any two methods
(for example GET and POST) each handler produces identical responses,
identical resulting worlds, and identical file-system traces; in
particular a GET to /save/<title> writes the file and redirects exactly
as a POST does. -/
theorem handlers_ignore_method (w : World) (r : Request) (m m' : String) :
    viewHandler w { r with method := m } = viewHandler w { r with method := m' } ∧
    editHandler w { r with method := m } = editHandler w { r with method := m' } ∧
    saveHandler w { r with method := m } = saveHandler w { r with method := m' } := by
  obtain ⟨m0, p0, f0⟩ := r
  exact ⟨rfl, rfl, rfl⟩

/-- C10: a valid save request whose form has no "body" field succeeds:
FormValue yields "", a zero-byte <title>.txt is written (replacing any
previous content), and the client is redirected to /view/<title>. -/
theorem saveHandler_missing_body_field (w : World) (r : Request) (t : String)
    (h : getTitle r = some t) (hb : r.form.lookup "body" = none)
    (hw : w.writeErr = none) :
    (saveHandler w r).1 = [Response.redirect ("/view/" ++ t) statusFound] ∧
    readFile (saveHandler w r).2.1 (t ++ ".txt") = some [] := by
  have hfv : formValue r "body" = "" := by simp [formValue, hb]
  have hsb : strBytes (formValue r "body") = [] := by rw [hfv]; exact rfl
  simp [saveHandler, h, Page.save, writeFile, hw, readFile, lookup_setFile_self, hsb]

/-- Witness for C10: POST /save/Foo with no form fields truncates the
existing Foo.txt to zero bytes and redirects to /view/Foo. -/
theorem saveHandler_missing_body_field_witness :
    (saveHandler
        { files := [("Foo.txt", [1, 2])], writeErr := none,
          renderErr := fun _ _ => none }
        { method := "POST", path := "/save/Foo", form := [] }).1
      = [Response.redirect "/view/Foo" statusFound] ∧
    readFile
      (saveHandler
        { files := [("Foo.txt", [1, 2])], writeErr := none,
          renderErr := fun _ _ => none }
        { method := "POST", path := "/save/Foo", form := [] }).2.1 "Foo.txt"
      = some [] :=
  saveHandler_missing_body_field
    { files := [("Foo.txt", [1, 2])], writeErr := none,
      renderErr := fun _ _ => none }
    { method := "POST", path := "/save/Foo", form := [] } "Foo"
    (by decide) rfl rfl
